import Mathlib

/-!
Verification of the `netschoolapi` client library (`netschoolapi/client.py`).

The development shallowly embeds the client: pure computations (the login
password-hash pipeline, date defaulting, request construction) become Lean
functions; the stateful login/logout handshake becomes explicit state passing
over a `ClientState` record, with the server's responses supplied as inputs
and the HTTP calls the client issues collected into an explicit trace.

Python's `hashlib.md5` is embedded as a full executable MD5 (RFC 1321) over
byte lists, with machine words as `Nat` reduced `% 2^32`.
-/

namespace NetSchool

/-! ### MD5 (RFC 1321), bytes as `Nat < 256`, words as `Nat % 2^32` -/

def w32 : Nat := 4294967296

/-- 32-bit left rotation on a word already reduced below `2^32`. -/
def rotl32 (x s : Nat) : Nat :=
  ((x <<< s) % w32) ||| ((x % w32) >>> (32 - s))

/-- The 64 MD5 sine-derived constants `K[i]`. -/
def md5K : List Nat :=
  [0xd76aa478, 0xe8c7b756, 0x242070db, 0xc1bdceee,
   0xf57c0faf, 0x4787c62a, 0xa8304613, 0xfd469501,
   0x698098d8, 0x8b44f7af, 0xffff5bb1, 0x895cd7be,
   0x6b901122, 0xfd987193, 0xa679438e, 0x49b40821,
   0xf61e2562, 0xc040b340, 0x265e5a51, 0xe9b6c7aa,
   0xd62f105d, 0x02441453, 0xd8a1e681, 0xe7d3fbc8,
   0x21e1cde6, 0xc33707d6, 0xf4d50d87, 0x455a14ed,
   0xa9e3e905, 0xfcefa3f8, 0x676f02d9, 0x8d2a4c8a,
   0xfffa3942, 0x8771f681, 0x6d9d6122, 0xfde5380c,
   0xa4beea44, 0x4bdecfa9, 0xf6bb4b60, 0xbebfbc70,
   0x289b7ec6, 0xeaa127fa, 0xd4ef3085, 0x04881d05,
   0xd9d4d039, 0xe6db99e5, 0x1fa27cf8, 0xc4ac5665,
   0xf4292244, 0x432aff97, 0xab9423a7, 0xfc93a039,
   0x655b59c3, 0x8f0ccc92, 0xffeff47d, 0x85845dd1,
   0x6fa87e4f, 0xfe2ce6e0, 0xa3014314, 0x4e0811a1,
   0xf7537e82, 0xbd3af235, 0x2ad7d2bb, 0xeb86d391]

/-- The per-round left-rotation amounts `s[i]`. -/
def md5S : List Nat :=
  [7, 12, 17, 22, 7, 12, 17, 22, 7, 12, 17, 22, 7, 12, 17, 22,
   5, 9, 14, 20, 5, 9, 14, 20, 5, 9, 14, 20, 5, 9, 14, 20,
   4, 11, 16, 23, 4, 11, 16, 23, 4, 11, 16, 23, 4, 11, 16, 23,
   6, 10, 15, 21, 6, 10, 15, 21, 6, 10, 15, 21, 6, 10, 15, 21]

/-- Round function (F, G, H, I by quarter); `^^^ 0xffffffff` is 32-bit NOT. -/
def md5F (i b c d : Nat) : Nat :=
  if i < 16 then (b &&& c) ||| ((b ^^^ 0xffffffff) &&& d)
  else if i < 32 then (d &&& b) ||| ((d ^^^ 0xffffffff) &&& c)
  else if i < 48 then b ^^^ c ^^^ d
  else c ^^^ (b ||| (d ^^^ 0xffffffff))

/-- Message-word index per round. -/
def md5G (i : Nat) : Nat :=
  if i < 16 then i % 16
  else if i < 32 then (5 * i + 1) % 16
  else if i < 48 then (3 * i + 5) % 16
  else (7 * i) % 16

/-- Little-endian 32-bit word `j` of a 64-byte chunk. -/
def leWord (chunk : List Nat) (j : Nat) : Nat :=
  chunk.getD (4 * j) 0 + 256 * chunk.getD (4 * j + 1) 0 +
    65536 * chunk.getD (4 * j + 2) 0 + 16777216 * chunk.getD (4 * j + 3) 0

/-- One of the 64 MD5 rounds: `A := D; D := C; C := B; B := B + rotl(F + A + K + M, s)`. -/
def md5Round (M : Nat → Nat) (st : Nat × Nat × Nat × Nat) (i : Nat) :
    Nat × Nat × Nat × Nat :=
  let a := st.1; let b := st.2.1; let c := st.2.2.1; let d := st.2.2.2
  let f := (md5F i b c d + a + md5K.getD i 0 + M (md5G i)) % w32
  (d, (b + rotl32 f (md5S.getD i 0)) % w32, b, c)

/-- Process one 64-byte chunk and add the result into the running state. -/
def md5Chunk (st : Nat × Nat × Nat × Nat) (chunk : List Nat) :
    Nat × Nat × Nat × Nat :=
  let r := (List.range 64).foldl (md5Round (leWord chunk)) st
  ((st.1 + r.1) % w32, (st.2.1 + r.2.1) % w32,
   (st.2.2.1 + r.2.2.1) % w32, (st.2.2.2 + r.2.2.2) % w32)

/-- `count` little-endian bytes of `n`. -/
def leBytes (n count : Nat) : List Nat :=
  (List.range count).map (fun i => (n >>> (8 * i)) % 256)

/-- MD5 padding: `0x80`, zeros to 56 mod 64, then the 64-bit LE bit length. -/
def md5Pad (msg : List Nat) : List Nat :=
  let len := msg.length
  let k := (120 - (len + 1) % 64) % 64
  msg ++ [0x80] ++ List.replicate k 0 ++ leBytes (8 * len) 8

/-- Split a byte list (of length a multiple of 64, as `md5Pad` produces)
into its 64-byte chunks. -/
def chunks64 (l : List Nat) : List (List Nat) :=
  (List.range (l.length / 64)).map (fun i => (l.drop (64 * i)).take 64)

def md5Init : Nat × Nat × Nat × Nat :=
  (0x67452301, 0xefcdab89, 0x98badcfe, 0x10325476)

/-- The 16 digest bytes of MD5 of a byte message. -/
def md5Bytes (msg : List Nat) : List Nat :=
  let r := (chunks64 (md5Pad msg)).foldl md5Chunk md5Init
  leBytes r.1 4 ++ leBytes r.2.1 4 ++ leBytes r.2.2.1 4 ++ leBytes r.2.2.2 4

/-- Lower-case hex digit for `n < 16`. -/
def hexDigit (n : Nat) : Char :=
  if n < 10 then Char.ofNat (48 + n) else Char.ofNat (87 + n)

def byteHex (b : Nat) : List Char := [hexDigit (b / 16), hexDigit (b % 16)]

def hexOfBytes (bs : List Nat) : String :=
  ⟨bs.foldr (fun b acc => byteHex b ++ acc) []⟩

/-- Python's `md5(data).hexdigest()`: lower-case hex MD5 digest. -/
def md5hex (msg : List Nat) : String := hexOfBytes (md5Bytes msg)

/-! ### Character encodings (Python `str.encode`) -/

/-- UTF-8 bytes of one scalar value (Python's default `str.encode()`). -/
def utf8EncodeChar (c : Char) : List Nat :=
  let n := c.toNat
  if n < 0x80 then [n]
  else if n < 0x800 then [0xC0 + n / 64, 0x80 + n % 64]
  else if n < 0x10000 then
    [0xE0 + n / 4096, 0x80 + (n / 64) % 64, 0x80 + n % 64]
  else
    [0xF0 + n / 262144, 0x80 + (n / 4096) % 64, 0x80 + (n / 64) % 64,
     0x80 + n % 64]

/-- Python `s.encode()` (UTF-8). -/
def utf8Encode (s : String) : List Nat := (s.data.map utf8EncodeChar).flatten

/-- Code points of a string, as bytes when the string is pure ASCII. -/
def asciiEncode (s : String) : List Nat := s.data.map Char.toNat

/-- One character under the windows-1251 codec: ASCII passes through,
`U+0410..U+044F` maps to `0xC0..0xFF`, the `0x80..0xBF` region by table;
`none` models Python's `UnicodeEncodeError` for unmappable characters. -/
def win1251Byte (c : Char) : Option Nat :=
  let n := c.toNat
  if n < 0x80 then some n
  else if 0x410 ≤ n && n ≤ 0x44F then some (n - 0x410 + 0xC0)
  else
    match n with
    | 0x0402 => some 0x80 | 0x0403 => some 0x81 | 0x201A => some 0x82
    | 0x0453 => some 0x83 | 0x201E => some 0x84 | 0x2026 => some 0x85
    | 0x2020 => some 0x86 | 0x2021 => some 0x87 | 0x20AC => some 0x88
    | 0x2030 => some 0x89 | 0x0409 => some 0x8A | 0x2039 => some 0x8B
    | 0x040A => some 0x8C | 0x040C => some 0x8D | 0x040B => some 0x8E
    | 0x040F => some 0x8F | 0x0452 => some 0x90 | 0x2018 => some 0x91
    | 0x2019 => some 0x92 | 0x201C => some 0x93 | 0x201D => some 0x94
    | 0x2022 => some 0x95 | 0x2013 => some 0x96 | 0x2014 => some 0x97
    | 0x2122 => some 0x99 | 0x0459 => some 0x9A | 0x203A => some 0x9B
    | 0x045A => some 0x9C | 0x045C => some 0x9D | 0x045B => some 0x9E
    | 0x045F => some 0x9F | 0x00A0 => some 0xA0 | 0x040E => some 0xA1
    | 0x045E => some 0xA2 | 0x0408 => some 0xA3 | 0x00A4 => some 0xA4
    | 0x0490 => some 0xA5 | 0x00A6 => some 0xA6 | 0x00A7 => some 0xA7
    | 0x0401 => some 0xA8 | 0x00A9 => some 0xA9 | 0x0404 => some 0xAA
    | 0x00AB => some 0xAB | 0x00AC => some 0xAC | 0x00AD => some 0xAD
    | 0x00AE => some 0xAE | 0x0407 => some 0xAF | 0x00B0 => some 0xB0
    | 0x00B1 => some 0xB1 | 0x0406 => some 0xB2 | 0x0456 => some 0xB3
    | 0x0491 => some 0xB4 | 0x00B5 => some 0xB5 | 0x00B6 => some 0xB6
    | 0x00B7 => some 0xB7 | 0x0451 => some 0xB8 | 0x2116 => some 0xB9
    | 0x0454 => some 0xBA | 0x00BB => some 0xBB | 0x0458 => some 0xBC
    | 0x0405 => some 0xBD | 0x0455 => some 0xBE | 0x0457 => some 0xBF
    | _ => none

/-- Python `s.encode("windows-1251")`; `none` when any character is unmappable. -/
def win1251Encode (s : String) : Option (List Nat) :=
  s.data.mapM win1251Byte

/-! ### The login hash pipeline (`client.py` lines 91–93) -/

/-- The double-MD5 password transform of `_login`:
`encoded_password = md5(password.encode("windows-1251")).hexdigest().encode()`,
`pw2 = md5(salt.encode() + encoded_password).hexdigest()`,
`pw = pw2[:len(password)]`. Returns `(pw, pw2)`; `none` when the
windows-1251 encoding of the password fails. -/
def loginHash (password salt : String) : Option (String × String) :=
  match win1251Encode password with
  | none => none
  | some passwordBytes =>
    let encoded_password := utf8Encode (md5hex passwordBytes)
    let pw2 := md5hex (utf8Encode salt ++ encoded_password)
    let pw := pw2.take password.length
    some (pw, pw2)

/-! ### Dates (Python `datetime.date`), as proleptic-Gregorian ordinals
with `toordinal(0001-01-01) = 1`, Python's convention. -/

def isLeap (y : Nat) : Bool := y % 4 == 0 && (y % 100 != 0 || y % 400 == 0)

def daysInMonth (y m : Nat) : Nat :=
  if m == 2 then (if isLeap y then 29 else 28)
  else if m == 4 || m == 6 || m == 9 || m == 11 then 30
  else 31

/-- Days strictly before January 1 of year `y` (so `toOrdinal y 1 1 = this + 1`). -/
def daysBeforeYear (y : Nat) : Nat :=
  let n := y - 1
  n * 365 + n / 4 - n / 100 + n / 400

/-- Days in year `y` strictly before month `m`. -/
def daysBeforeMonth (y m : Nat) : Nat :=
  ((List.range (m - 1)).map (fun k => daysInMonth y (k + 1))).sum

/-- Python `date(y, m, d).toordinal()`. -/
def toOrdinal (y m d : Nat) : Nat := daysBeforeYear y + daysBeforeMonth y m + d

/-- Python `date.weekday()`: Monday is 0. `0001-01-01` (ordinal 1) is a Monday. -/
def weekday (o : Nat) : Nat := (o - 1) % 7

/-- Find `(month, day)` from a 0-based day offset `rd` within year `y`,
scanning months from `m` (the fuel counts the months left to inspect). -/
def monthDayAux : Nat → Nat → Nat → Nat → Nat × Nat
  | 0, _, m, rd => (m, rd + 1)
  | fuel + 1, y, m, rd =>
    if 12 ≤ m then (12, rd + 1)
    else if rd < daysInMonth y m then (m, rd + 1)
    else monthDayAux fuel y (m + 1) (rd - daysInMonth y m)

/-- Python `date.fromordinal`: `(year, month, day)` of an ordinal `≥ 1`. -/
def fromOrdinal (o : Nat) : Nat × Nat × Nat :=
  let n0 := o - 1
  let n400 := n0 / 146097
  let r400 := n0 % 146097
  let n100 := r400 / 36524
  let r100 := r400 % 36524
  let n4 := r100 / 1461
  let r4 := r100 % 1461
  let n1 := r4 / 365
  let rd := r4 % 365
  let year := n400 * 400 + n100 * 100 + n4 * 4 + n1 + 1
  if n1 == 4 || n100 == 4 then (year - 1, 12, 31)
  else
    let md := monthDayAux 12 year 1 rd
    (year, md.1, md.2)

/-- Zero-pad the decimal rendering of `n` to `width` digits. -/
def padNum (width n : Nat) : String :=
  let s := toString n
  String.mk (List.replicate (width - s.length) '0') ++ s

/-- Python `date.isoformat()`: `YYYY-MM-DD`. -/
def isoformat (o : Nat) : String :=
  let ymd := fromOrdinal o
  padNum 4 ymd.1 ++ "-" ++ padNum 2 ymd.2.1 ++ "-" ++ padNum 2 ymd.2.2

/-! ### JSON values, errors, and the response decoder -/

/-- Decoded JSON, as Python's `json` module produces it (object fields in
document order; an object standing for a `dict` has pairwise-distinct keys). -/
inductive Json where
  | null
  | bool (b : Bool)
  | num (n : Int)
  | str (s : String)
  | arr (elems : List Json)
  | obj (fields : List (String × Json))
deriving Repr

/-- Modelled from the spec: the library's typed errors from
`netschoolapi/exceptions.py` (not under `src/`) — Invalid Response carrying
the raw body, Login Data Error, and the generic API error carrying the
server's message — together with Python's untyped built-in `KeyError`,
`TypeError` and `UnicodeEncodeError`, which are not library errors. -/
inductive NSError where
  | invalidResponse (body : String)
  | loginDataError
  | apiError (message : String)
  | keyErr (key : String)
  | typeErr (description : String)
  | unicodeEncodeErr
deriving Repr, DecidableEq

/-- The library's own typed error kinds, as opposed to leaked Python built-ins. -/
def NSError.isLibraryError : NSError → Bool
  | .invalidResponse _ => true
  | .loginDataError => true
  | .apiError _ => true
  | _ => false

/-- A raw HTTP response body, abstracting the JSON parse: either a body that
parses to a JSON value, or one that does not (carried verbatim). -/
inductive Body where
  | json (j : Json)
  | raw (text : String)
deriving Repr

/-- Modelled from the spec: `_json_or_panic` from `netschoolapi/utils.py`
(not under `src/`) — parse the response body as JSON; if parsing fails, raise
the typed invalid-response error that includes the raw body. -/
def jsonOrPanic : Body → Except NSError Json
  | .json j => .ok j
  | .raw text => .error (.invalidResponse text)

/-- First binding of key `k` in an object's field list. -/
def lookupField : List (String × Json) → String → Option Json
  | [], _ => none
  | p :: rest, k => if p.1 == k then some p.2 else lookupField rest k

/-- Python `j[k]` on a decoded JSON value: `KeyError` when the key is absent
(the model restricts indexing to objects). -/
def jsonIndex (j : Json) (k : String) : Except NSError Json :=
  match j with
  | .obj fields =>
    match lookupField fields k with
    | some v => .ok v
    | none => .error (.keyErr k)
  | _ => .error (.typeErr "indexing a non-object")

/-- Python `dict.pop(k)` / key removal on an object's field list. -/
def eraseKey (fields : List (String × Json)) (k : String) : List (String × Json) :=
  fields.filter (fun p => p.1 != k)

/-- Python dict assignment `d[k] = v`: overwrite in place or append. -/
def dictSet (d : List (String × Json)) (k : String) (v : Json) :
    List (String × Json) :=
  if d.any (fun p => p.1 == k) then d.map (fun p => if p.1 == k then (k, v) else p)
  else d ++ [(k, v)]

/-- Python `{**d, **kvs}` merging: assign the pairs of `kvs` left to right. -/
def dictExtend (d kvs : List (String × Json)) : List (String × Json) :=
  kvs.foldl (fun acc kv => dictSet acc kv.1 kv.2) d

/-- Header assignment `client.headers[k] = v` (httpx header map). -/
def headerSet (hs : List (String × String)) (k v : String) :
    List (String × String) :=
  if hs.any (fun p => p.1 == k) then hs.map (fun p => if p.1 == k then (k, v) else p)
  else hs ++ [(k, v)]

def headerValue : List (String × String) → String → Option String
  | [], _ => none
  | p :: rest, k => if p.1 == k then some p.2 else headerValue rest k

/-- A Python optional passed as a query-parameter value (`None` → null). -/
def optJson : Option Json → Json
  | none => .null
  | some j => j

/-! ### Requests, calls, and client state -/

inductive Method where
  | get
  | post
deriving Repr, DecidableEq, BEq

/-- One HTTP request as the client builds it: method, relative path, query
parameters, optional body payload, and the client-level headers it carries. -/
structure Request where
  method : Method
  path : String
  params : List (String × Json)
  body : Option Json
  headers : List (String × String)
deriving Repr

/-- One issued request together with whether its response is passed through
`_json_or_panic` (the Response Decoder). -/
structure Call where
  request : Request
  decoded : Bool
deriving Repr

/-- The mutable attributes of `NetSchoolAPI` (lines 13–30): the underlying
client's base URL and headers, the credentials, the school selector, and the
`_user_id`/`_year_id` slots (`None` until populated by `_login`; they hold
whatever JSON value the server returned). -/
structure ClientState where
  baseUrl : String
  headers : List (String × String)
  userName : String
  password : String
  school : String × String × String × String × String
  userId : Option Json
  yearId : Option Json
deriving Repr

/-- `__init__` (lines 13–30). -/
def initState (url userName password : String)
    (school : String × String × String × String × String) : ClientState :=
  { baseUrl := url.dropRightWhile (· == '/') ++ "/webapi"
    headers := [("user-agent", "NetSchoolAPI/4.0.2"), ("referer", url)]
    userName := userName
    password := password
    school := school
    userId := none
    yearId := none }

/-! ### Data-retrieval operations (`client.py` lines 32–82) -/

/-- Modelled from the spec: `data.Assignment` from `netschoolapi/data.py`
(not under `src/`) "carries an identifier used to fetch DetailedAssignment
and Attachments"; only that identifier is used by the client. -/
structure Assignment where
  id : Int
deriving Repr, DecidableEq

/-- `get_diary` (lines 32–53): default `week_start` to `today` minus
`today.weekday()` and `week_end` to `week_start + 5` days, then GET
`student/diary` with the ISO-formatted bounds. `today` stands for
`date.today()`; dates are Python ordinals. -/
def get_diary_request (st : ClientState) (today : Nat)
    (week_start week_end : Option Nat) : Request :=
  let ws := match week_start with
    | none => today - weekday today
    | some d => d
  let we := match week_end with
    | none => ws + 5
    | some d => d
  { method := .get
    path := "student/diary"
    params := [("studentId", optJson st.userId),
               ("weekStart", .str (isoformat ws)),
               ("weekEnd", .str (isoformat we)),
               ("yearId", optJson st.yearId)]
    body := none
    headers := st.headers }

def get_diary_calls (st : ClientState) (today : Nat)
    (week_start week_end : Option Nat) : List Call :=
  [⟨get_diary_request st today week_start week_end, true⟩]

/-- `get_announcements` (lines 55–62). -/
def get_announcements_request (st : ClientState) (take : Option Int) : Request :=
  { method := .get
    path := "announcements"
    params := [("take", optJson (take.map Json.num))]
    body := none
    headers := st.headers }

def get_announcements_calls (st : ClientState) (take : Option Int) : List Call :=
  [⟨get_announcements_request st take, true⟩]

/-- `get_details` (lines 64–71). -/
def get_details_request (st : ClientState) (assignment : Assignment) : Request :=
  { method := .get
    path := "student/diary/assigns/" ++ toString assignment.id
    params := []
    body := none
    headers := st.headers }

def get_details_calls (st : ClientState) (assignment : Assignment) : List Call :=
  [⟨get_details_request st assignment, true⟩]

/-- `get_attachments` (lines 73–82): one POST with the student id as a
query parameter and `{"assignId": [a.id for a in assignments]}` as the body. -/
def get_attachments_request (st : ClientState) (assignments : List Assignment) :
    Request :=
  { method := .post
    path := "student/diary/get-attachments"
    params := [("studentId", optJson st.userId)]
    body := some (.obj [("assignId", .arr (assignments.map (fun a => .num a.id)))])
    headers := st.headers }

def get_attachments_calls (st : ClientState) (assignments : List Assignment) :
    List Call :=
  [⟨get_attachments_request st assignments, true⟩]

/-! ### Login (`client.py` lines 84–122) -/

/-- Lines 97–104: the login POST body
`{"logintype": 1, **login_form, "un": ..., "pw": ..., "pw2": ..., **login_data}`
with Python dict-literal semantics (a later binding of a key overwrites an
earlier one). `login_data` is the `auth/getdata` payload after `pop("salt")`. -/
def buildLoginBody (login_form : List (String × Json)) (un pw pw2 : String)
    (login_data : List (String × Json)) : List (String × Json) :=
  dictExtend
    (dictSet (dictSet (dictSet (dictExtend (dictSet [] "logintype" (.num 1))
      login_form) "un" (.str un)) "pw" (.str pw)) "pw2" (.str pw2))
    login_data

/-- Lines 107–115: handle the decoded login response. If `"at"` is present,
store it as the client-level `at` header; otherwise branch on
`len(response["message"])`: exactly 29 raises `LoginDataError`, any other
length raises `NetSchoolAPIError(message)`; a missing `"message"` key is a
plain `KeyError`. -/
def handleLoginResponse (headers : List (String × String)) (response : Json) :
    Except NSError (List (String × String)) :=
  match response with
  | .obj fields =>
    match lookupField fields "at" with
    | some (.str t) => .ok (headerSet headers "at" t)
    | some _ => .error (.typeErr "header value must be str")
    | none =>
      match lookupField fields "message" with
      | none => .error (.keyErr "message")
      | some (.str m) =>
        if m.length == 29 then .error .loginDataError
        else .error (.apiError m)
      | some _ => .error (.typeErr "len() of a non-string message")
  | _ => .error (.typeErr "login response is not a JSON object")

/-- Lines 117–119: `diary["students"][diary["currentStudentId"]]["studentId"]`
(the model restricts the inner lookup to string keys, as JSON objects have). -/
def getStudentId (diary : Json) : Except NSError Json := do
  let students ← jsonIndex diary "students"
  let cur ← jsonIndex diary "currentStudentId"
  match cur with
  | .str key => do
    let student ← jsonIndex students key
    jsonIndex student "studentId"
  | _ => .error (.typeErr "currentStudentId is not a string key")

/-- Line 86: `client.get("logindata")` — its response feeds
`cookies.extract_cookies` only and never `_json_or_panic`. -/
def loginCall1 (st : ClientState) : Call :=
  ⟨{ method := .get, path := "logindata", params := [], body := none
     headers := st.headers }, false⟩

/-- Line 88: `client.post("auth/getdata")`, decoded. -/
def loginCall2 (st : ClientState) : Call :=
  ⟨{ method := .post, path := "auth/getdata", params := [], body := none
     headers := st.headers }, true⟩

/-- Lines 95–105: `client.post("login", data=...)`, decoded. -/
def loginPostCall (st : ClientState) (body : Json) : Call :=
  ⟨{ method := .post, path := "login", params := [], body := some body
     headers := st.headers }, true⟩

/-- Line 117: `client.get("student/diary/init")`, decoded. -/
def diaryInitCall (st : ClientState) : Call :=
  ⟨{ method := .get, path := "student/diary/init", params := [], body := none
     headers := st.headers }, true⟩

/-- Line 121: `client.get("context")`, decoded. -/
def contextCall (st : ClientState) : Call :=
  ⟨{ method := .get, path := "context", params := [], body := none
     headers := st.headers }, true⟩

/-- Lines 117–122 of `_login`: after the token header is stored, fetch the
diary-init payload to extract `_user_id`, then the context payload to extract
`_year_id`. `pre` is the call trace accumulated so far. -/
def loginFetchIds (st2 : ClientState) (pre : List Call)
    (diaryInitResp contextResp : Body) :
    List Call × Except NSError ClientState :=
  let c4 := diaryInitCall st2
  match jsonOrPanic diaryInitResp with
  | .error e => (pre ++ [c4], .error e)
  | .ok diary =>
    match getStudentId diary with
    | .error e => (pre ++ [c4], .error e)
    | .ok sid =>
      let st3 : ClientState := { st2 with userId := some sid }
      let c5 := contextCall st3
      match jsonOrPanic contextResp with
      | .error e => (pre ++ [c4, c5], .error e)
      | .ok context =>
        match jsonIndex context "schoolYearId" with
        | .error e => (pre ++ [c4, c5], .error e)
        | .ok yid => (pre ++ [c4, c5], .ok { st3 with yearId := some yid })

/-- Lines 95–122 of `_login`: POST the assembled login body, decode the
response and handle it (store the token header or raise), then fetch the
identifiers. -/
def loginSubmit (st : ClientState) (body : List (String × Json))
    (loginResp diaryInitResp contextResp : Body) :
    List Call × Except NSError ClientState :=
  let pre := [loginCall1 st, loginCall2 st, loginPostCall st (.obj body)]
  match jsonOrPanic loginResp with
  | .error e => (pre, .error e)
  | .ok response =>
    match handleLoginResponse st.headers response with
    | .error e => (pre, .error e)
    | .ok headers2 =>
      loginFetchIds { st with headers := headers2 } pre diaryInitResp
        contextResp

/-- `_login` (lines 84–122), with each awaited server response an input.
`login_form` stands for the mapping returned by `_get_login_form` (from
`netschoolapi/login_form.py`, not under `src/`; its own HTTP traffic is not
part of this trace). Returns the trace of HTTP calls the method issues —
each marked with whether its response passes through `_json_or_panic` — and
the resulting client state or the raised error. -/
def loginStep (st : ClientState) (login_form : List (String × Json))
    (getdataResp loginResp diaryInitResp contextResp : Body) :
    List Call × Except NSError ClientState :=
  let pre := [loginCall1 st, loginCall2 st]
  match jsonOrPanic getdataResp with
  | .error e => (pre, .error e)
  | .ok login_data0 =>
    match login_data0 with
    | .obj fields0 =>
      match lookupField fields0 "salt" with
      | none => (pre, .error (.keyErr "salt"))
      | some (.str salt) =>
        match loginHash st.password salt with
        | none => (pre, .error .unicodeEncodeErr)
        | some pwpair =>
          loginSubmit st
            (buildLoginBody login_form st.userName pwpair.1 pwpair.2
              (eraseKey fields0 "salt"))
            loginResp diaryInitResp contextResp
      | some _ => (pre, .error (.typeErr "salt is not a string"))
    | _ => (pre, .error (.typeErr "login data is not a JSON object"))

/-! ### Logout and the scoped session (`client.py` lines 124–133) -/

/-- The sign-out POST of `_logout` (lines 124–126). -/
def logoutRequest (st : ClientState) : Request :=
  { method := .post, path := "auth/logout", params := [], body := none
    headers := st.headers }

/-- `_logout`: issues the sign-out POST (response not decoded) and leaves
every attribute of the client untouched. -/
def logoutStep (st : ClientState) : ClientState × List Call :=
  (st, [⟨logoutRequest st, false⟩])

/-- The exception triple Python passes to `__aexit__`
(`None, None, None` when the body completed normally). -/
structure ExcInfo where
  excType : Option String
  excVal : Option String
  excTb : Option String
deriving Repr, DecidableEq

/-- `__aexit__` (lines 132–133): awaits `_logout`, whatever the exception
information is. -/
def aexitCalls (st : ClientState) (_info : ExcInfo) : List Call :=
  (logoutStep st).2

/-- How the code inside an `async with` scope finished. -/
inductive BodyOutcome where
  | completed
  | raised (exc : String)
deriving Repr, DecidableEq

/-- The `async with NetSchoolAPI(...)` protocol (lines 128–133): enter runs
`_login`; if login raised, the scope is never entered and `__aexit__` does
not run; otherwise the body runs and `__aexit__` runs on both the normal and
the raising path, receiving the corresponding exception triple. -/
def runScopedSession (st : ClientState) (login_form : List (String × Json))
    (getdataResp loginResp diaryInitResp contextResp : Body)
    (bodyCalls : List Call) (outcome : BodyOutcome) : List Call :=
  match (loginStep st login_form getdataResp loginResp diaryInitResp
      contextResp).2 with
  | .error _ =>
    (loginStep st login_form getdataResp loginResp diaryInitResp contextResp).1
  | .ok st2 =>
    match outcome with
    | .completed =>
      (loginStep st login_form getdataResp loginResp diaryInitResp
        contextResp).1 ++ bodyCalls ++ aexitCalls st2 ⟨none, none, none⟩
    | .raised e =>
      (loginStep st login_form getdataResp loginResp diaryInitResp
        contextResp).1 ++ bodyCalls ++ aexitCalls st2 ⟨some e, some e, some e⟩

/-- Recognize the sign-out POST in a call trace. -/
def isLogoutCall (c : Call) : Bool :=
  c.request.method == .post && c.request.path == "auth/logout"

/-! ### Spec-side formulations (for refinement claims) -/

/-- The hash pipeline exactly as the specification words it: `pw2` is the
lower-case hex MD5 of (the UTF-8 bytes of the salt concatenated with the
ASCII bytes of the lower-case hex MD5 of the password encoded in
windows-1251), and `pw` is the first `N` characters of `pw2` where `N` is
the character length of the password. -/
def specLoginHash (p s : String) : Option (String × String) :=
  (win1251Encode p).map (fun pb =>
    let pw2 := md5hex (utf8Encode s ++ asciiEncode (md5hex pb))
    (pw2.take p.length, pw2))

/-- The login POST body as the specification words it: `logintype=1`, the
resolved hidden login-form fields, the username as `un`, the computed `pw`
and `pw2`, plus every field of the `auth/getdata` payload except `salt`,
which is removed before merging. -/
def specLoginBody (login_form : List (String × Json)) (un pw pw2 : String)
    (getdata : List (String × Json)) : List (String × Json) :=
  dictExtend
    (dictSet (dictSet (dictSet (dictExtend (dictSet [] "logintype" (.num 1))
      login_form) "un" (.str un)) "pw" (.str pw)) "pw2" (.str pw2))
    (eraseKey getdata "salt")

/-- A concrete client, as `NetSchoolAPI(url, user_name, password, school)`
constructs it. -/
def sampleState : ClientState :=
  initState "https://example.com/" "user" "pw" ("s1", "s2", "s3", "s4", "s5")

/-! Concrete server responses for a fully successful login handshake. -/

def sampleGetdataResp : Body := .json (.obj [("salt", .str "S")])

def sampleLoginResp : Body := .json (.obj [("at", .str "token123")])

def sampleDiaryInitResp : Body :=
  .json (.obj [("students", .obj [("100", .obj [("studentId", .num 100)])]),
               ("currentStudentId", .str "100")])

def sampleContextResp : Body := .json (.obj [("schoolYearId", .num 7)])

/-! ### The hex digest is ASCII, so `.encode()` of it is its code points -/

theorem hexDigit_toNat_lt (n : Nat) (h : n < 16) : (hexDigit n).toNat < 128 := by
  interval_cases n <;> decide

theorem utf8EncodeChar_ascii (c : Char) (h : c.toNat < 128) :
    utf8EncodeChar c = [c.toNat] := by
  unfold utf8EncodeChar
  simp [h]

theorem mem_hexOfBytes_lt (bs : List Nat) (hb : ∀ b ∈ bs, b < 256) :
    ∀ c ∈ (hexOfBytes bs).data, c.toNat < 128 := by
  induction bs with
  | nil => simp [hexOfBytes]
  | cons b rest ih =>
    intro c hc
    have hdata : (hexOfBytes (b :: rest)).data
        = byteHex b ++ (hexOfBytes rest).data := rfl
    rw [hdata] at hc
    rcases List.mem_append.mp hc with h1 | h2
    · have hb0 : b < 256 := hb b (by simp)
      have hdiv : b / 16 < 16 := by omega
      have hmod : b % 16 < 16 := Nat.mod_lt _ (by norm_num)
      simp only [byteHex, List.mem_cons, List.not_mem_nil, or_false] at h1
      rcases h1 with rfl | rfl
      · exact hexDigit_toNat_lt _ hdiv
      · exact hexDigit_toNat_lt _ hmod
    · exact ih (fun x hx => hb x (by simp [hx])) c h2

theorem flatten_utf8_ascii (l : List Char) (h : ∀ c ∈ l, c.toNat < 128) :
    (l.map utf8EncodeChar).flatten = l.map Char.toNat := by
  induction l with
  | nil => rfl
  | cons c rest ih =>
    simp only [List.map_cons, List.flatten_cons]
    rw [utf8EncodeChar_ascii c (h c (by simp)),
      ih (fun x hx => h x (by simp [hx]))]
    rfl

theorem md5Bytes_lt (msg : List Nat) : ∀ b ∈ md5Bytes msg, b < 256 := by
  intro b hb
  unfold md5Bytes at hb
  simp only [leBytes, List.mem_append, List.mem_map, List.mem_range] at hb
  rcases hb with ((⟨i, _, rfl⟩ | ⟨i, _, rfl⟩) | ⟨i, _, rfl⟩) | ⟨i, _, rfl⟩ <;>
    exact Nat.mod_lt _ (by norm_num)

/-- The hex digest is pure ASCII, so Python's default `.encode()` of it gives
exactly its code points. -/
theorem utf8Encode_md5hex (msg : List Nat) :
    utf8Encode (md5hex msg) = asciiEncode (md5hex msg) :=
  flatten_utf8_ascii _ (mem_hexOfBytes_lt _ (md5Bytes_lt msg))

/-! ### Sanity: the embedded MD5 meets the RFC 1321 test vectors -/

set_option maxRecDepth 100000 in
theorem md5hex_rfc_empty : md5hex [] = "d41d8cd98f00b204e9800998ecf8427e" := by
  rfl

set_option maxRecDepth 100000 in
theorem md5hex_rfc_abc :
    md5hex (utf8Encode "abc") = "900150983cd24fb0d6963f7d28e17f72" := by
  rfl

/-- Claim C1: for every password `p` and salt `s`, the pipeline of `_login`
computes `pw2` as the lower-case hex MD5 of (the UTF-8/ASCII bytes of `s`
concatenated with the ASCII bytes of the lower-case hex MD5 of `p` encoded in
windows-1251), and `pw` as the first `len(p)` characters of `pw2`; as a total
function of `(p, s)` the computation is deterministic. -/
theorem loginHash_matches_spec (p s : String) :
    loginHash p s = specLoginHash p s := by
  unfold loginHash specLoginHash
  cases h : win1251Encode p with
  | none => rfl
  | some pb => simp [utf8Encode_md5hex]

set_option maxRecDepth 100000 in
/-- A concrete sanity check of the whole pipeline (spec §8: password
`"abc123"`, salt `"S"`), matching CPython's `hashlib`/`windows-1251` output. -/
theorem loginHash_example :
    loginHash "abc123" "S" = some ("803238", "803238586d86076ba94a204091e53276") := by
  rfl

/-! ### Lookup lemmas for header maps and dict merging -/

theorem headerValue_map_set (hs : List (String × String)) (k v : String)
    (h : hs.any (fun p => p.1 == k) = true) :
    headerValue (hs.map (fun p => if p.1 == k then (k, v) else p)) k
      = some v := by
  induction hs with
  | nil => simp at h
  | cons p rest ih =>
    by_cases hp : p.1 = k
    · simp [headerValue, hp]
    · have h2 : rest.any (fun q => q.1 == k) = true := by
        simpa [List.any_cons, hp] using h
      simpa [headerValue, hp] using ih h2

theorem headerValue_append_set (hs : List (String × String)) (k v : String)
    (h : hs.any (fun p => p.1 == k) = false) :
    headerValue (hs ++ [(k, v)]) k = some v := by
  induction hs with
  | nil => simp [headerValue]
  | cons p rest ih =>
    simp only [List.any_cons, Bool.or_eq_false_iff] at h
    have hp : ¬(p.1 = k) := by simpa using h.1
    simp [headerValue, hp, ih h.2]

/-- After `headers[k] = v`, looking up `k` yields `v`. -/
theorem headerValue_headerSet (hs : List (String × String)) (k v : String) :
    headerValue (headerSet hs k v) k = some v := by
  unfold headerSet
  by_cases h : hs.any (fun p => p.1 == k) = true
  · simp only [h, if_true]
    exact headerValue_map_set hs k v h
  · simp only [Bool.not_eq_true] at h
    simp only [h, Bool.false_eq_true, if_false]
    exact headerValue_append_set hs k v h

theorem lookupField_eq_none_iff (d : List (String × Json)) (k : String) :
    lookupField d k = none ↔ ∀ p ∈ d, p.1 ≠ k := by
  induction d with
  | nil => simp [lookupField]
  | cons p rest ih =>
    by_cases h : p.1 = k
    · simp [lookupField, h]
    · simp [lookupField, h, ih]

theorem lookupField_map_overwrite (d : List (String × Json)) (k k' : String)
    (v : Json) (h : k' ≠ k) :
    lookupField (d.map (fun p => if p.1 == k then (k, v) else p)) k'
      = lookupField d k' := by
  induction d with
  | nil => rfl
  | cons p rest ih =>
    by_cases hp : p.1 = k
    · simpa [lookupField, hp, Ne.symm h] using ih
    · by_cases hq : p.1 = k'
      · simp [lookupField, hp, hq, h]
      · simpa [lookupField, hp, hq] using ih

theorem lookupField_append_single (d : List (String × Json)) (k k' : String)
    (v : Json) (h : k' ≠ k) :
    lookupField (d ++ [(k, v)]) k' = lookupField d k' := by
  induction d with
  | nil => simp [lookupField, Ne.symm h]
  | cons p rest ih =>
    by_cases hq : p.1 = k'
    · simp [lookupField, hq]
    · simp [lookupField, hq, ih]

/-- `d[k] = v` leaves the binding of any other key unchanged. -/
theorem lookupField_dictSet_ne (d : List (String × Json)) (k k' : String)
    (v : Json) (h : k' ≠ k) :
    lookupField (dictSet d k v) k' = lookupField d k' := by
  unfold dictSet
  by_cases hany : d.any (fun p => p.1 == k) = true
  · simp only [hany, if_true]
    exact lookupField_map_overwrite d k k' v h
  · simp only [Bool.not_eq_true] at hany
    simp only [hany, Bool.false_eq_true, if_false]
    exact lookupField_append_single d k k' v h

/-- Merging pairs none of which binds `k` leaves `k`'s binding unchanged. -/
theorem lookupField_dictExtend_none (d kvs : List (String × Json)) (k : String)
    (h : ∀ p ∈ kvs, p.1 ≠ k) :
    lookupField (dictExtend d kvs) k = lookupField d k := by
  induction kvs generalizing d with
  | nil => rfl
  | cons p rest ih =>
    have hstep : dictExtend d (p :: rest) = dictExtend (dictSet d p.1 p.2) rest :=
      rfl
    rw [hstep, ih (dictSet d p.1 p.2) (fun q hq => h q (by simp [hq])),
      lookupField_dictSet_ne d p.1 k p.2 (Ne.symm (h p (by simp)))]

theorem mem_eraseKey_ne (fields : List (String × Json)) (k : String) :
    ∀ p ∈ eraseKey fields k, p.1 ≠ k := by
  intro p hp
  have hmem := List.mem_filter.mp hp
  simpa using hmem.2

/-! ### Shape of the login call trace -/

/-- When `"at"` is present (as a string) the login-response handler stores it
via header assignment. -/
theorem handleLoginResponse_at (hs : List (String × String))
    (fields : List (String × Json)) (t : String)
    (h : lookupField fields "at" = some (.str t)) :
    handleLoginResponse hs (.obj fields) = .ok (headerSet hs "at" t) := by
  simp only [handleLoginResponse, h]

theorem loginFetchIds_trace (st2 : ClientState) (pre : List Call)
    (r4 r5 : Body) :
    ∃ suf : List Call,
      (loginFetchIds st2 pre r4 r5).1 = pre ++ suf ∧
      suf.all (fun c => c.decoded) = true ∧
      suf.countP isLogoutCall = 0 := by
  unfold loginFetchIds
  repeat' split
  all_goals exact ⟨_, rfl, rfl, rfl⟩

/-- A successful identifier fetch only fills `userId`/`yearId`; headers and
credentials are those of the state it started from. -/
theorem loginFetchIds_ok_headers (st2 : ClientState) (pre : List Call)
    (r4 r5 : Body) (st' : ClientState)
    (h : (loginFetchIds st2 pre r4 r5).2 = .ok st') :
    st'.headers = st2.headers := by
  unfold loginFetchIds at h
  repeat' split at h
  all_goals simp_all
  subst h
  rfl

theorem loginSubmit_trace (st : ClientState) (body : List (String × Json))
    (r3 r4 r5 : Body) :
    ∃ suf : List Call,
      (loginSubmit st body r3 r4 r5).1
        = [loginCall1 st, loginCall2 st, loginPostCall st (.obj body)] ++ suf ∧
      suf.all (fun c => c.decoded) = true ∧
      suf.countP isLogoutCall = 0 := by
  unfold loginSubmit
  split
  · exact ⟨[], rfl, rfl, rfl⟩
  · split
    · exact ⟨[], rfl, rfl, rfl⟩
    · exact loginFetchIds_trace _ _ _ _

/-- Every `_login` trace is the undecoded `logindata` GET, the decoded
`auth/getdata` POST, then only decoded calls, none of them the sign-out
POST. -/
theorem loginStep_trace (st : ClientState) (lf : List (String × Json))
    (r2 r3 r4 r5 : Body) :
    ∃ suf : List Call,
      (loginStep st lf r2 r3 r4 r5).1 = loginCall1 st :: loginCall2 st :: suf ∧
      suf.all (fun c => c.decoded) = true ∧
      suf.countP isLogoutCall = 0 := by
  unfold loginStep
  split
  · exact ⟨[], rfl, rfl, rfl⟩
  · split
    · split
      · exact ⟨[], rfl, rfl, rfl⟩
      · split
        · exact ⟨[], rfl, rfl, rfl⟩
        · rename_i fields hgd xa salt hsalt xb pwpair hhash
          obtain ⟨suf, htr, hall, hcnt⟩ := loginSubmit_trace st
            (buildLoginBody lf st.userName pwpair.1 pwpair.2
              (eraseKey fields "salt")) r3 r4 r5
          have hc3 : isLogoutCall (loginPostCall st
              (.obj (buildLoginBody lf st.userName pwpair.1 pwpair.2
                (eraseKey fields "salt")))) = false := rfl
          refine ⟨loginPostCall st
            (.obj (buildLoginBody lf st.userName pwpair.1 pwpair.2
              (eraseKey fields "salt"))) :: suf, ?_, ?_, ?_⟩
          · rw [htr]
            rfl
          · simp [List.all_cons, hall, loginPostCall]
          · simp [List.countP_cons, hcnt, hc3]
      · exact ⟨[], rfl, rfl, rfl⟩
    · exact ⟨[], rfl, rfl, rfl⟩

/-- A successful login stores the response's `at` token as the client-level
header. -/
theorem loginStep_ok_headers (st : ClientState) (lf : List (String × Json))
    (r2 r4 r5 : Body) (fields : List (String × Json)) (t : String)
    (st' : ClientState)
    (hat : lookupField fields "at" = some (.str t))
    (hstep : (loginStep st lf r2 (.json (.obj fields)) r4 r5).2 = .ok st') :
    st'.headers = headerSet st.headers "at" t := by
  unfold loginStep at hstep
  repeat' split at hstep
  all_goals try simp_all
  unfold loginSubmit at hstep
  simp only [jsonOrPanic, handleLoginResponse_at st.headers fields t hat]
    at hstep
  exact loginFetchIds_ok_headers _ _ _ _ _ hstep

/-- Claim C4: `get_diary` with both bounds omitted defaults `week_start` to
`today - today.weekday()` — the Monday of the current week — and `week_end`
to `week_start + 5` days, and the GET carries `weekStart`/`weekEnd` equal to
the ISO rendering of exactly those dates; explicit bounds are rendered as
given, and an omitted `week_end` with an explicit `week_start` defaults to
`week_start + 5`. -/
theorem get_diary_date_defaults (st : ClientState) (today : Nat)
    (h : 1 ≤ today) :
    lookupField (get_diary_request st today none none).params "weekStart"
      = some (.str (isoformat (today - weekday today))) ∧
    lookupField (get_diary_request st today none none).params "weekEnd"
      = some (.str (isoformat (today - weekday today + 5))) ∧
    weekday (today - weekday today) = 0 ∧
    today - weekday today ≤ today ∧
    today < today - weekday today + 7 ∧
    (∀ ws we : Nat,
      lookupField (get_diary_request st today (some ws) (some we)).params
        "weekStart" = some (.str (isoformat ws)) ∧
      lookupField (get_diary_request st today (some ws) (some we)).params
        "weekEnd" = some (.str (isoformat we)) ∧
      lookupField (get_diary_request st today (some ws) none).params
        "weekEnd" = some (.str (isoformat (ws + 5)))) := by
  refine ⟨rfl, rfl, ?_, ?_, ?_, fun ws we => ⟨rfl, rfl, rfl⟩⟩
  · have hdm := Nat.div_add_mod (today - 1) 7
    have hle : (today - 1) % 7 ≤ today - 1 := Nat.mod_le _ _
    have h1 : today - weekday today - 1 = 7 * ((today - 1) / 7) := by
      simp only [weekday]
      omega
    show (today - weekday today - 1) % 7 = 0
    rw [h1]
    exact Nat.mul_mod_right 7 _
  · exact Nat.sub_le _ _
  · have h7 : (today - 1) % 7 < 7 := Nat.mod_lt _ (by norm_num)
    have hle : (today - 1) % 7 ≤ today - 1 := Nat.mod_le _ _
    simp only [weekday]
    omega

/-- Witness for C4 at `today` = 2026-10-12 (ordinal 739901, a Monday): the
defaulted bounds render as `2026-10-12` and `2026-10-17`. -/
theorem get_diary_date_defaults_witness :
    1 ≤ (739901 : Nat) ∧
    lookupField (get_diary_request sampleState 739901 none none).params
      "weekStart" = some (.str "2026-10-12") ∧
    lookupField (get_diary_request sampleState 739901 none none).params
      "weekEnd" = some (.str "2026-10-17") ∧
    weekday (739901 - weekday 739901) = 0 := by
  have h := get_diary_date_defaults sampleState 739901 (by decide)
  exact ⟨by decide, h.1, h.2.1, h.2.2.1⟩

/-- Claim C7: `get_attachments` issues exactly one POST; its JSON body maps
`assignId` to the assignments' ids in input order, and its `studentId` query
parameter is the session's stored student identifier. -/
theorem get_attachments_single_post (st : ClientState)
    (assignments : List Assignment) :
    (get_attachments_calls st assignments).length = 1 ∧
    ∀ c ∈ get_attachments_calls st assignments,
      c.request.method = .post ∧
      c.request.path = "student/diary/get-attachments" ∧
      lookupField c.request.params "studentId" = some (optJson st.userId) ∧
      c.request.body = some (.obj [("assignId",
        .arr (assignments.map (fun a => Json.num a.id)))]) := by
  refine ⟨rfl, fun c hc => ?_⟩
  rcases List.mem_singleton.mp hc with rfl
  exact ⟨rfl, rfl, rfl, rfl⟩

/-- Witness for C7 on assignments `[101, 202]`: one POST whose body lists the
ids in order and whose `studentId` parameter is the stored (here unset) id. -/
theorem get_attachments_single_post_witness :
    (get_attachments_calls sampleState [⟨101⟩, ⟨202⟩]).length = 1 ∧
    (get_attachments_request sampleState [⟨101⟩, ⟨202⟩]).body
      = some (.obj [("assignId", .arr [.num 101, .num 202])]) ∧
    lookupField (get_attachments_request sampleState [⟨101⟩, ⟨202⟩]).params
      "studentId" = some .null := by
  have h := get_attachments_single_post sampleState [⟨101⟩, ⟨202⟩]
  have hm := h.2 ⟨get_attachments_request sampleState [⟨101⟩, ⟨202⟩], true⟩
    (List.mem_singleton.mpr rfl)
  exact ⟨h.1, hm.2.2.2, hm.2.2.1⟩

/-- Claim C8: `_logout` issues the sign-out POST and leaves every piece of
local session state — headers (including the `at` token), `_user_id`,
`_year_id` — exactly as it was. -/
theorem logout_frame (st : ClientState) :
    (logoutStep st).1 = st ∧
    (logoutStep st).1.headers = st.headers ∧
    (logoutStep st).1.userId = st.userId ∧
    (logoutStep st).1.yearId = st.yearId ∧
    (logoutStep st).2 = [⟨logoutRequest st, false⟩] ∧
    (logoutRequest st).method = .post ∧
    (logoutRequest st).path = "auth/logout" ∧
    (logoutRequest st).headers = st.headers :=
  ⟨rfl, rfl, rfl, rfl, rfl, rfl, rfl, rfl⟩

/-- Claim C10: a freshly constructed client has `_user_id = _year_id = None`,
and `get_diary`/`get_attachments` called in that state still issue their one
request, with `studentId` (and `yearId`) rendered as the null value. -/
theorem fresh_client_none_ids (url un pw : String)
    (school : String × String × String × String × String)
    (today : Nat) (ws we : Option Nat) (assignments : List Assignment) :
    (initState url un pw school).userId = none ∧
    (initState url un pw school).yearId = none ∧
    (get_diary_calls (initState url un pw school) today ws we).length = 1 ∧
    lookupField (get_diary_request (initState url un pw school) today ws we).params
      "studentId" = some .null ∧
    lookupField (get_diary_request (initState url un pw school) today ws we).params
      "yearId" = some .null ∧
    (get_attachments_calls (initState url un pw school) assignments).length = 1 ∧
    lookupField (get_attachments_request (initState url un pw school) assignments).params
      "studentId" = some .null :=
  ⟨rfl, rfl, rfl, rfl, rfl, rfl, rfl⟩

/-- Claim C2: on the login response, a present `"at"` key (a token string)
succeeds and stores the token as the client-level `at` header, which every
subsequent request carries; with no `"at"`, a 29-character `message` raises
the Login Data Error and any other message length raises the generic API
error carrying exactly that message. -/
theorem login_response_at_or_message (headers : List (String × String))
    (fields : List (String × Json)) :
    (∀ t : String, lookupField fields "at" = some (.str t) →
      handleLoginResponse headers (.obj fields)
        = .ok (headerSet headers "at" t) ∧
      headerValue (headerSet headers "at" t) "at" = some t) ∧
    (∀ m : String, lookupField fields "at" = none →
      lookupField fields "message" = some (.str m) →
      (m.length = 29 →
        handleLoginResponse headers (.obj fields) = .error .loginDataError) ∧
      (m.length ≠ 29 →
        handleLoginResponse headers (.obj fields) = .error (.apiError m))) ∧
    (∀ (st : ClientState) (t : String),
      headerValue st.headers "at" = some t →
      ∀ (today : Nat) (ws we : Option Nat) (take : Option Int)
        (assignment : Assignment) (assignments : List Assignment),
        headerValue (get_diary_request st today ws we).headers "at" = some t ∧
        headerValue (get_announcements_request st take).headers "at" = some t ∧
        headerValue (get_details_request st assignment).headers "at" = some t ∧
        headerValue (get_attachments_request st assignments).headers "at"
          = some t ∧
        headerValue (logoutRequest st).headers "at" = some t) ∧
    (∀ (st : ClientState) (lf : List (String × Json)) (r2 r4 r5 : Body)
        (t : String) (st' : ClientState),
      lookupField fields "at" = some (.str t) →
      (loginStep st lf r2 (.json (.obj fields)) r4 r5).2 = .ok st' →
      headerValue st'.headers "at" = some t) := by
  refine ⟨?_, ?_, ?_, ?_⟩
  · intro t hat
    exact ⟨handleLoginResponse_at headers fields t hat,
      headerValue_headerSet headers "at" t⟩
  · intro m hat hmsg
    constructor
    · intro h29
      simp only [handleLoginResponse, hat, hmsg, h29, beq_self_eq_true,
        if_true]
    · intro h29
      simp only [handleLoginResponse, hat, hmsg]
      rw [if_neg (by simpa using h29)]
  · intro st t ht today ws we take assignment assignments
    exact ⟨ht, ht, ht, ht, ht⟩
  · intro st lf r2 r4 r5 t st' hat hstep
    rw [loginStep_ok_headers st lf r2 r4 r5 fields t st' hat hstep]
    exact headerValue_headerSet st.headers "at" t

/-- Witness for C2: a token response stores and exposes the header; the
29-character message raises the Login Data Error; a short message raises the
generic API error with that text. -/
theorem login_response_at_or_message_witness :
    (handleLoginResponse [] (.obj [("at", .str "token123")])
      = .ok [("at", "token123")]) ∧
    headerValue [("at", "token123")] "at" = some "token123" ∧
    (handleLoginResponse []
        (.obj [("message", .str "xxxxxxxxxxxxxxxxxxxxxxxxxxxxx")])
      = .error .loginDataError) ∧
    (handleLoginResponse [] (.obj [("message", .str "short")])
      = .error (.apiError "short")) ∧
    headerValue (get_diary_request { sampleState with
      headers := [("at", "tok")] } 739901 none none).headers "at"
      = some "tok" := by
  have h1 := (login_response_at_or_message []
    [("at", .str "token123")]).1 "token123" rfl
  have h2 := (login_response_at_or_message []
    [("message", .str "xxxxxxxxxxxxxxxxxxxxxxxxxxxxx")]).2.1
    "xxxxxxxxxxxxxxxxxxxxxxxxxxxxx" rfl rfl
  have h3 := (login_response_at_or_message []
    [("message", .str "short")]).2.1 "short" rfl rfl
  have h4 := ((login_response_at_or_message [] []).2.2.1
    { sampleState with headers := [("at", "tok")] } "tok" rfl
    739901 none none none ⟨1⟩ []).1
  exact ⟨h1.1, h1.2, h2.1 (by decide), h3.2 (by decide), h4⟩

/-- Counterexample to C3 as stated: the sign-out POST issued by `_logout` is
not passed through the Response Decoder. -/
theorem logout_not_decoded_counterexample :
    ¬ (∀ c ∈ (logoutStep sampleState).2, c.decoded = true) := by
  intro h
  exact absurd
    (h ⟨logoutRequest sampleState, false⟩ (List.mem_singleton.mpr rfl))
    (by simp)

/-- Claim C3, amended: every response whose body the client consumes is passed
through the Response Decoder — all calls of the four data-retrieval
operations, and every login call except the cookie-priming `logindata` GET —
while the `logindata` GET and logout's sign-out POST are not decoded; and the
decoder raises the typed Invalid Response error carrying the raw body on any
non-JSON response. -/
theorem response_decoding_amended (st : ClientState) (today : Nat)
    (ws we : Option Nat) (take : Option Int) (assignment : Assignment)
    (assignments : List Assignment) (lf : List (String × Json))
    (r2 r3 r4 r5 : Body) :
    ((get_diary_calls st today ws we).all (fun c => c.decoded)) = true ∧
    ((get_announcements_calls st take).all (fun c => c.decoded)) = true ∧
    ((get_details_calls st assignment).all (fun c => c.decoded)) = true ∧
    ((get_attachments_calls st assignments).all (fun c => c.decoded)) = true ∧
    ((loginStep st lf r2 r3 r4 r5).1.all
      (fun c => c.decoded || (c.request.path == "logindata"))) = true ∧
    ((loginStep st lf r2 r3 r4 r5).1.countP (fun c => !c.decoded)) ≤ 1 ∧
    ((logoutStep st).2.all (fun c => !c.decoded)) = true ∧
    (∀ text, jsonOrPanic (.raw text) = .error (.invalidResponse text)) := by
  obtain ⟨suf, htr, hall, _⟩ := loginStep_trace st lf r2 r3 r4 r5
  refine ⟨rfl, rfl, rfl, rfl, ?_, ?_, rfl, fun text => rfl⟩
  · rw [htr]
    simp only [List.all_cons]
    have h1 : ((loginCall1 st).decoded
      || ((loginCall1 st).request.path == "logindata")) = true := rfl
    have h2 : ((loginCall2 st).decoded
      || ((loginCall2 st).request.path == "logindata")) = true := rfl
    rw [h1, h2]
    simp only [Bool.true_and]
    rw [List.all_eq_true]
    intro c hc
    have hd := List.all_eq_true.mp hall c hc
    simp only at hd
    simp [hd]
  · rw [htr]
    have hz : suf.countP (fun c => !c.decoded) = 0 := by
      rw [List.countP_eq_zero]
      intro c hc
      have hd := List.all_eq_true.mp hall c hc
      simp_all
    simp [List.countP_cons, hz, loginCall1, loginCall2]

/-- Claim C5: `__aexit__` invokes `_logout` exactly once for any exception
triple; over a whole scoped session whose login succeeded and whose body
issues no sign-out POST of its own, the trace contains the sign-out POST
exactly once, whether the body completed or raised. -/
theorem scoped_session_logout_once (st stx : ClientState) (info : ExcInfo)
    (lf : List (String × Json)) (r2 r3 r4 r5 : Body)
    (bodyCalls : List Call) (outcome : BodyOutcome)
    (hbody : bodyCalls.countP isLogoutCall = 0)
    (hok : ∃ st2, (loginStep st lf r2 r3 r4 r5).2 = .ok st2) :
    (aexitCalls stx info).countP isLogoutCall = 1 ∧
    (runScopedSession st lf r2 r3 r4 r5 bodyCalls outcome).countP isLogoutCall
      = 1 := by
  obtain ⟨st2, h2⟩ := hok
  obtain ⟨suf, htr, _, hcnt⟩ := loginStep_trace st lf r2 r3 r4 r5
  have e1 : isLogoutCall (loginCall1 st) = false := rfl
  have e2 : isLogoutCall (loginCall2 st) = false := rfl
  have hlogin : ((loginStep st lf r2 r3 r4 r5).1).countP isLogoutCall = 0 := by
    rw [htr]
    simp [List.countP_cons, hcnt, e1, e2]
  have haexit : ∀ (sty : ClientState) (i : ExcInfo),
      (aexitCalls sty i).countP isLogoutCall = 1 := fun sty i => rfl
  refine ⟨haexit stx info, ?_⟩
  unfold runScopedSession
  rw [h2]
  cases outcome with
  | completed =>
    simp [List.countP_append, hlogin, hbody, haexit]
  | raised e =>
    simp [List.countP_append, hlogin, hbody, haexit]

/-- Witness for C5: a concrete successful login followed by a raising body
still signs out exactly once. -/
theorem scoped_session_logout_once_witness :
    ([] : List Call).countP isLogoutCall = 0 ∧
    (∃ st2, (loginStep sampleState [] sampleGetdataResp sampleLoginResp
      sampleDiaryInitResp sampleContextResp).2 = .ok st2) ∧
    (runScopedSession sampleState [] sampleGetdataResp sampleLoginResp
      sampleDiaryInitResp sampleContextResp [] (.raised "boom")).countP
        isLogoutCall = 1 := by
  refine ⟨rfl, ⟨_, rfl⟩, ?_⟩
  exact (scoped_session_logout_once sampleState sampleState
    ⟨some "boom", some "boom", some "boom"⟩ [] sampleGetdataResp
    sampleLoginResp sampleDiaryInitResp sampleContextResp [] (.raised "boom")
    rfl ⟨_, rfl⟩).2

/-- Claim C6: the login POST body is `logintype=1`, the resolved hidden form
fields, `un`, `pw`, `pw2`, plus every field of the `auth/getdata` payload
except `salt`, which is removed before merging; the third call of the login
trace is exactly that POST, and when the form itself does not bind `salt`,
the submitted body has no `salt` field at all. -/
theorem login_post_body (st : ClientState) (lf : List (String × Json))
    (gd : List (String × Json)) (salt : String) (pwp : String × String)
    (r3 r4 r5 : Body)
    (hsalt : lookupField gd "salt" = some (.str salt))
    (hhash : loginHash st.password salt = some pwp) :
    buildLoginBody lf st.userName pwp.1 pwp.2 (eraseKey gd "salt")
      = specLoginBody lf st.userName pwp.1 pwp.2 gd ∧
    ((loginStep st lf (.json (.obj gd)) r3 r4 r5).1.drop 2).head?
      = some (loginPostCall st
          (.obj (specLoginBody lf st.userName pwp.1 pwp.2 gd))) ∧
    (lookupField lf "salt" = none →
      lookupField (specLoginBody lf st.userName pwp.1 pwp.2 gd) "salt"
        = none) := by
  refine ⟨rfl, ?_, ?_⟩
  · simp only [loginStep, jsonOrPanic, hsalt, hhash]
    obtain ⟨suf, htr, _, _⟩ := loginSubmit_trace st
      (buildLoginBody lf st.userName pwp.1 pwp.2 (eraseKey gd "salt"))
      r3 r4 r5
    rw [htr]
    rfl
  · intro hlf
    unfold specLoginBody
    rw [lookupField_dictExtend_none _ _ _ (mem_eraseKey_ne gd "salt"),
      lookupField_dictSet_ne _ _ _ _ (by decide),
      lookupField_dictSet_ne _ _ _ _ (by decide),
      lookupField_dictSet_ne _ _ _ _ (by decide),
      lookupField_dictExtend_none _ _ _
        ((lookupField_eq_none_iff lf "salt").mp hlf)]
    rfl

set_option maxRecDepth 1000000 in
/-- Witness for C6 with password `"pw"`, salt `"S"`, one extra getdata field:
the assembled body carries the hash pair, the username, the extra field, and
no `salt`. -/
theorem login_post_body_witness :
    (lookupField [("salt", Json.str "S"), ("ver", .str "169")] "salt"
      = some (.str "S")) ∧
    (loginHash "pw" "S"
      = some ("84", "84b08ab65b5f3a06737c457b596287a9")) ∧
    (specLoginBody [] "user" "84" "84b08ab65b5f3a06737c457b596287a9"
        [("salt", Json.str "S"), ("ver", .str "169")]
      = [("logintype", .num 1), ("un", .str "user"), ("pw", .str "84"),
         ("pw2", .str "84b08ab65b5f3a06737c457b596287a9"),
         ("ver", .str "169")]) ∧
    ((loginStep sampleState [] (.json (.obj [("salt", Json.str "S"),
        ("ver", .str "169")])) sampleLoginResp sampleDiaryInitResp
        sampleContextResp).1.drop 2).head?
      = some (loginPostCall sampleState
          (.obj [("logintype", .num 1), ("un", .str "user"),
                 ("pw", .str "84"),
                 ("pw2", .str "84b08ab65b5f3a06737c457b596287a9"),
                 ("ver", .str "169")])) ∧
    (lookupField (specLoginBody [] "user" "84"
        "84b08ab65b5f3a06737c457b596287a9"
        [("salt", Json.str "S"), ("ver", .str "169")]) "salt" = none) := by
  have h := login_post_body sampleState []
    [("salt", Json.str "S"), ("ver", .str "169")] "S"
    ("84", "84b08ab65b5f3a06737c457b596287a9")
    sampleLoginResp sampleDiaryInitResp sampleContextResp rfl (by rfl)
  exact ⟨rfl, by rfl, rfl, h.2.1, h.2.2 rfl⟩

set_option maxRecDepth 1000000 in
/-- Claim C9: a login response containing neither `"at"` nor `"message"` makes
login raise the untyped `KeyError` for `"message"` — not one of the library's
typed errors. -/
theorem login_missing_message_keyerror :
    ((loginStep sampleState [] sampleGetdataResp (.json (.obj []))
        sampleDiaryInitResp sampleContextResp).2
      = .error (.keyErr "message")) ∧
    (NSError.keyErr "message").isLibraryError = false := by
  exact ⟨by rfl, rfl⟩

end NetSchool
